import Mathlib

/-!
Verification of the replicate-minimax-image-01 MCP server (src/src/index.ts)
against its natural-language specification.

The TypeScript source is shallowly embedded:
 * `generateImageFilename` (index.ts lines 35-44) becomes a pure function over
   `List Char`, with the current instant (`new Date()`) made an explicit
   `Instant` argument and `Date.toISOString` modelled as fixed-width decimal
   rendering of the instant's components.
 * each tool handler becomes a total Lean function taking the remote call's
   outcome and the per-asset filesystem outcomes as explicit arguments, and
   returning the response envelope together with an explicit log of its
   side effects (remote calls issued, directory creations, file writes and
   the resulting on-disk state).
-/

namespace Minimax

/-! ## Filename deriver (index.ts lines 35-44) -/

/-- JavaScript `\s` on the characters this code meets: space, tab, LF, CR. -/
def isWs (c : Char) : Bool :=
  c = ' ' || c = '\t' || c = '\n' || c = '\r'

/-- The character class kept by `.replace(/[^a-z0-9\s]/g, '')` (after
lower-casing): lower-case letters, digits and whitespace. -/
def keepChar (c : Char) : Bool :=
  ('a' ≤ c && c ≤ 'z') || ('0' ≤ c && c ≤ '9') || isWs c

/-- Embeds `.replace(/\s+/g, '_')`: collapse every maximal run of whitespace to a
single underscore.  `prevWs` records whether the previous character was
whitespace (so the run only emits one underscore). -/
def collapseGo (prevWs : Bool) : List Char → List Char
  | [] => []
  | c :: rest =>
    if isWs c then
      if prevWs then collapseGo true rest else '_' :: collapseGo true rest
    else c :: collapseGo false rest

def collapseWs (l : List Char) : List Char := collapseGo false l

/-- The `safePrompt` computation of `generateImageFilename`: lower-case,
strip everything outside `[a-z0-9\s]`, collapse whitespace runs to `_`,
truncate to 50 characters (`.substring(0, 50)`). -/
def safePrompt (prompt : List Char) : List Char :=
  List.take 50 (collapseWs ((prompt.map Char.toLower).filter keepChar))

/-- An instant, as the components `Date.toISOString` renders. -/
structure Instant where
  y : Nat
  mo : Nat
  d : Nat
  h : Nat
  mi : Nat
  s : Nat
  ms : Nat
deriving DecidableEq, Repr

/-- Component bounds under which the ISO rendering is the usual fixed-width
one (every real `Date` satisfies them). -/
def Instant.valid (t : Instant) : Prop :=
  t.y < 10000 ∧ t.mo < 100 ∧ t.d < 100 ∧ t.h < 100 ∧ t.mi < 100 ∧
    t.s < 100 ∧ t.ms < 1000

instance (t : Instant) : Decidable t.valid := by
  unfold Instant.valid; infer_instance

def pad2 (n : Nat) : List Char :=
  [Nat.digitChar (n / 10 % 10), Nat.digitChar (n % 10)]

def pad3 (n : Nat) : List Char :=
  [Nat.digitChar (n / 100 % 10), Nat.digitChar (n / 10 % 10),
    Nat.digitChar (n % 10)]

def pad4 (n : Nat) : List Char :=
  [Nat.digitChar (n / 1000 % 10), Nat.digitChar (n / 100 % 10),
    Nat.digitChar (n / 10 % 10), Nat.digitChar (n % 10)]

/-- Embeds `new Date(...).toISOString()`: `YYYY-MM-DDTHH:MM:SS.mmmZ`. -/
def toISOString (t : Instant) : List Char :=
  pad4 t.y ++ '-' :: pad2 t.mo ++ '-' :: pad2 t.d ++ 'T' :: pad2 t.h ++
    ':' :: pad2 t.mi ++ ':' :: pad2 t.s ++ '.' :: pad3 t.ms ++ ['Z']

/-- Embeds `.replace(/[:.]/g, '-')` applied to one character. -/
def sanitizeChar (c : Char) : Char :=
  if c = ':' || c = '.' then '-' else c

def sanitizeTimestamp (l : List Char) : List Char := l.map sanitizeChar

/-- Decimal rendering of a natural number (the template-literal `${index}`),
written with explicit fuel so it reduces definitionally. -/
def natDigitsAux : Nat → Nat → List Char
  | 0, _ => []
  | fuel + 1, n =>
    if n < 10 then [Nat.digitChar n]
    else natDigitsAux fuel (n / 10) ++ [Nat.digitChar (n % 10)]

def natDigits (n : Nat) : List Char := natDigitsAux (n + 1) n

/-- Embeds `generateImageFilename` (index.ts lines 35-44):
`minimax_image_01_${safePrompt}_${index}_${timestamp}.jpeg` where
`timestamp` is the ISO rendering of `now` with `:` and `.` replaced by `-`. -/
def generateImageFilename (prompt : List Char) (index : Nat)
    (now : Instant) : List Char :=
  "minimax_image_01_".data ++ safePrompt prompt ++
    '_' :: natDigits index ++ '_' ::
    sanitizeTimestamp (toISOString now) ++ ".jpeg".data

example :
    safePrompt "A Red Panda!!!".data = "a_red_panda".data := by decide

example :
    generateImageFilename "A Red Panda!!!".data 1 ⟨2025, 6, 7, 8, 9, 10, 11⟩ =
      "minimax_image_01_a_red_panda_1_2025-06-07T08-09-10-011Z.jpeg".data := by
  decide

/-! ## Shared handler model -/

/-- One element of the `MinimaxImageFile[]` output; the handlers only use
its `url()` accessor, the byte payload is irrelevant to the claims. -/
structure ImageFile where
  url : String
deriving DecidableEq, Repr

/-- Outcome of `replicate.run("minimax/image-01", ...)`: the promise either
rejects (message string) or resolves; a resolved value may still be
`null`/`undefined` (`none`) or an array of files. -/
inductive RunOutcome
  | ok (output : Option (List ImageFile))
  | err (msg : String)
deriving DecidableEq, Repr

/-- Outcome of one `await writeFile(filePath, imageFile)`: success, failure
leaving a partially written file on disk, or failure leaving nothing.  The
source has no cleanup code, so whatever the write left behind persists. -/
inductive WriteOutcome
  | ok
  | failPartial
  | failClean
deriving DecidableEq, Repr

/-- The response envelope `{ content: [{ type: "text", text }], isError? }`;
the content array always holds exactly one text block, so only the text and
the error flag vary. -/
structure Response where
  text : String
  isError : Bool
deriving DecidableEq, Repr

def errEnvelope (msg : String) : Response := { text := msg, isError := true }

/-- JavaScript truthiness of an optional string: `undefined` and `""` are
falsy. -/
def optTruthy (o : Option String) : Bool :=
  match o with
  | none => false
  | some s => !(s == "")

/-- Renders `${b}` for a boolean. -/
def boolStr (b : Bool) : String := if b then "true" else "false"

/-- Renders `${n}` for a natural number. -/
def natStr (n : Nat) : String := ⟨natDigits n⟩

/-- Embeds `path.join(process.cwd(), 'images')`, with the working directory taken
as the path root. -/
def imagesDir : String := "images"

def filenameStr (prompt : String) (index : Nat) (now : Instant) : String :=
  ⟨generateImageFilename prompt.data index now⟩

/-- Embeds `path.join(imagesDir, filename)`. -/
def imagePath (prompt : String) (index : Nat) (now : Instant) : String :=
  imagesDir ++ "/" ++ filenameStr prompt index now

/-- One entry of `savedImages` (index.ts lines 145-160). -/
structure SavedImage where
  index : Nat
  filename : String
  localPath : Option String
  url : String
deriving DecidableEq, Repr

/-- The save loop (index.ts lines 135-162): iterate over the output in
order; on write success record the local path, on failure record `null`,
always record the source URL.  `save i` is the filesystem's outcome for the
i-th write, `clock i` the instant at which the i-th filename is derived. -/
def saveImages (prompt : String) (save : Nat → WriteOutcome)
    (clock : Nat → Instant) : Nat → List ImageFile → List SavedImage
  | _, [] => []
  | i, f :: rest =>
    let filename := filenameStr prompt (i + 1) (clock i)
    let filePath := imagesDir ++ "/" ++ filename
    (match save i with
      | .ok =>
        { index := i + 1, filename := filename, localPath := some filePath,
          url := f.url }
      | _ =>
        { index := i + 1, filename := filename, localPath := none,
          url := f.url }) :: saveImages prompt save clock (i + 1) rest

/-- The on-disk state the save loop leaves behind: `(path, complete?)` per
file that exists afterwards.  A failed write that left partial bytes stays
on disk — the source never deletes it. -/
def writeEffects (prompt : String) (save : Nat → WriteOutcome)
    (clock : Nat → Instant) : Nat → List ImageFile → List (String × Bool)
  | _, [] => []
  | i, _ :: rest =>
    let filePath := imagePath prompt (i + 1) (clock i)
    match save i with
    | .ok => (filePath, true) :: writeEffects prompt save clock (i + 1) rest
    | .failPartial =>
      (filePath, false) :: writeEffects prompt save clock (i + 1) rest
    | .failClean => writeEffects prompt save clock (i + 1) rest

/-- The write attempts the save loop issues, in order (one `writeFile` per
output element, whatever its outcome). -/
def writePaths (prompt : String) (clock : Nat → Instant) :
    Nat → List ImageFile → List String
  | _, [] => []
  | i, _ :: rest =>
    imagePath prompt (i + 1) (clock i) :: writePaths prompt clock (i + 1) rest

/-! ## `minimax_image_01_generate` handler (index.ts lines 100-210) -/

/-- The handler's arguments after destructuring with defaults
(index.ts lines 101-107). -/
structure GenParams where
  prompt : String
  aspect_ratio : String
  number_of_images : Nat
  prompt_optimizer : Bool
  subject_reference : Option String
deriving DecidableEq, Repr

/-- One block of `imageDetails` (index.ts lines 165-173). -/
def imageDetail (img : SavedImage) : String :=
  "Image " ++ natStr img.index ++ ":" ++
  (match img.localPath with
    | some p => "\n  Local Path: " ++ p
    | none => "") ++
  "\n  Original URL: " ++ img.url ++
  "\n  Filename: " ++ img.filename

/-- Embeds `.join(sep)`. -/
def joinSep (sep : String) : List String → String
  | [] => ""
  | [x] => x
  | x :: rest => x ++ sep ++ joinSep sep rest

def savedNote : String :=
  "Images have been saved to the local 'images' directory in JPEG format."

def degradedNote : String :=
  "Note: Local save failed, but original URLs are available."

/-- The final line of the response (index.ts line 186): the success note as
soon as at least one local save succeeded, the degraded note only when
every save failed. -/
def genNote (saved : List SavedImage) : String :=
  if saved.any (fun img => img.localPath.isSome) then savedNote
  else degradedNote

/-- The success response text (index.ts lines 175-186). -/
def genSuccessText (p : GenParams) (saved : List SavedImage)
    (note : String) : String :=
  "Successfully generated " ++ natStr saved.length ++
  " image(s) using minimax/image-01:\n\n" ++
  "Prompt: \"" ++ p.prompt ++ "\"\n" ++
  "Aspect Ratio: " ++ p.aspect_ratio ++ "\n" ++
  "Number of Images: " ++ natStr p.number_of_images ++ "\n" ++
  "Prompt Optimizer: " ++ boolStr p.prompt_optimizer ++ "\n" ++
  (match p.subject_reference with
    | some s => if s == "" then "" else "Subject Reference: " ++ s
    | none => "") ++ "\n\n" ++
  "Generated Images:\n" ++
  joinSep "\n\n" (saved.map imageDetail) ++ "\n\n" ++ note

/-- Everything the `generate` handler produces: the response envelope, the
`savedImages` list, the note chosen for the final line (when a success
response was built), and the side effects — number of `replicate.run`
calls, number of `ensureImagesDirectory` calls, and the on-disk state. -/
structure GenResult where
  response : Response
  saved : List SavedImage
  note : Option String
  remoteCalls : Nat
  mkdirCalls : Nat
  fsFiles : List (String × Bool)
deriving DecidableEq, Repr

/-- The `minimax_image_01_generate` handler body (index.ts lines 100-210):
call the remote model, reject an empty or missing output, otherwise save
every image (per-asset failures downgraded to `localPath = null`) and
format the response; any thrown error is caught at lines 195-209 and turned
into an error-flagged envelope. -/
def runGenerate (p : GenParams) (run : RunOutcome)
    (save : Nat → WriteOutcome) (clock : Nat → Instant) : GenResult :=
  match run with
  | .err m =>
    { response := errEnvelope ("Failed to generate images: " ++ m),
      saved := [], note := none, remoteCalls := 1, mkdirCalls := 0,
      fsFiles := [] }
  | .ok none =>
    { response :=
        errEnvelope "Failed to generate images: No images returned from the API",
      saved := [], note := none, remoteCalls := 1, mkdirCalls := 0,
      fsFiles := [] }
  | .ok (some files) =>
    if files.length = 0 then
      { response :=
          errEnvelope "Failed to generate images: No images returned from the API",
        saved := [], note := none, remoteCalls := 1, mkdirCalls := 0,
        fsFiles := [] }
    else
      let saved := saveImages p.prompt save clock 0 files
      let note := genNote saved
      { response := { text := genSuccessText p saved note, isError := false },
        saved := saved, note := some note, remoteCalls := 1, mkdirCalls := 1,
        fsFiles := writeEffects p.prompt save clock 0 files }

/-- The raw tool arguments as received from the transport, before
destructuring defaults. -/
structure RawGenArgs where
  prompt : Option String
  aspect_ratio : Option String
  number_of_images : Option Nat
  prompt_optimizer : Option Bool
  subject_reference : Option String
deriving DecidableEq, Repr

def aspectRatios : List String :=
  ["1:1", "16:9", "4:3", "3:2", "2:3", "3:4", "9:16", "21:9"]

/-- The constraints declared by the tool's `inputSchema` (index.ts lines
66-98): `prompt` required, `aspect_ratio` in the fixed 8-value enum,
`number_of_images` an integer in [1,9]. -/
def validGenArgs (a : RawGenArgs) : Bool :=
  a.prompt.isSome &&
  (match a.aspect_ratio with
    | none => true
    | some r => aspectRatios.contains r) &&
  (match a.number_of_images with
    | none => true
    | some n => 1 ≤ n && n ≤ 9)

/-- Destructuring with defaults (index.ts lines 101-107). -/
def applyDefaults (a : RawGenArgs) : GenParams :=
  { prompt := a.prompt.getD "",
    aspect_ratio := a.aspect_ratio.getD "1:1",
    number_of_images := a.number_of_images.getD 1,
    prompt_optimizer := a.prompt_optimizer.getD true,
    subject_reference := a.subject_reference }

/-- Modelled from the spec: the transport layer ("Tool Registry validates
input against its schema", spec section 4.5) enforces the declared
`inputSchema` before the handler body runs, rejecting invalid arguments
with a local validation error and without invoking the handler — hence
without issuing any remote call.  The enforcement code lives in the MCP
SDK, outside this repository's sources; the constraints it enforces are
the ones declared at index.ts lines 66-98, embedded as `validGenArgs`. -/
def dispatchGenerate (a : RawGenArgs) (run : RunOutcome)
    (save : Nat → WriteOutcome) (clock : Nat → Instant) : GenResult :=
  if validGenArgs a then runGenerate (applyDefaults a) run save clock
  else
    { response :=
        errEnvelope "ValidationError: arguments do not satisfy the declared input schema",
      saved := [], note := none, remoteCalls := 0, mkdirCalls := 0,
      fsFiles := [] }

/-! ## Prediction shape shared by the async/get/cancel handlers -/

/-- The `prediction.input` echo, as read back at index.ts lines 376-384. -/
structure PredInput where
  prompt : String
  aspect_ratio : Option String
  number_of_images : Option Nat
  prompt_optimizer : Option Bool
  subject_reference : Option String
deriving DecidableEq, Repr

/-- A Replicate prediction object, restricted to the fields the handlers
read. -/
structure Prediction where
  id : String
  status : String
  model : String
  created_at : String
  started_at : Option String
  completed_at : Option String
  input : Option PredInput
  error : Option String
  logs : Option String
  output : Option (List ImageFile)
deriving DecidableEq, Repr

/-- Outcome of an awaited `replicate.predictions.*` call. -/
inductive PredOutcome
  | ok (p : Prediction)
  | err (msg : String)
deriving DecidableEq, Repr

/-- Renders `${o ? label + o : ''}` for an optional string field. -/
def optLine (label : String) (o : Option String) : String :=
  match o with
  | some s => if s == "" then "" else label ++ s
  | none => ""

/-! ## `minimax_image_01_generate_async` handler (index.ts lines 265-340) -/

/-- The async handler's arguments after destructuring with defaults
(index.ts lines 266-274). -/
structure AsyncArgs where
  prompt : String
  aspect_ratio : String
  number_of_images : Nat
  prompt_optimizer : Bool
  subject_reference : Option String
  webhook : Option String
  webhook_events_filter : List String
deriving DecidableEq, Repr

/-- The `predictionOptions` object built at index.ts lines 292-300: the
webhook fields are set only under `if (webhook)`. -/
structure PredictionOptions where
  model : String
  inputPrompt : String
  webhook : Option String
  webhook_events_filter : Option (List String)
deriving DecidableEq, Repr

def buildPredictionOptions (a : AsyncArgs) : PredictionOptions :=
  if optTruthy a.webhook then
    { model := "minimax/image-01", inputPrompt := a.prompt,
      webhook := a.webhook,
      webhook_events_filter := some a.webhook_events_filter }
  else
    { model := "minimax/image-01", inputPrompt := a.prompt,
      webhook := none, webhook_events_filter := none }

/-- The async success response text (index.ts lines 304-316). -/
def asyncSuccessText (a : AsyncArgs) (p : Prediction) : String :=
  "Async prediction created successfully:\n\n" ++
  "Prediction ID: " ++ p.id ++ "\n" ++
  "Status: " ++ p.status ++ "\n" ++
  "Model: minimax/image-01\n" ++
  "Prompt: \"" ++ a.prompt ++ "\"\n" ++
  "Aspect Ratio: " ++ a.aspect_ratio ++ "\n" ++
  "Number of Images: " ++ natStr a.number_of_images ++ "\n" ++
  "Prompt Optimizer: " ++ boolStr a.prompt_optimizer ++ "\n" ++
  (match a.subject_reference with
    | some s => if s == "" then "" else "Subject Reference: " ++ s
    | none => "") ++ "\n" ++
  (if optTruthy a.webhook then "Webhook: " ++ a.webhook.getD ""
   else "No webhook configured") ++ "\n\n" ++
  "Use 'minimax_image_01_get_prediction' with the prediction ID to check status and retrieve results."

/-- What the async handler produces: the envelope, the prediction-create
request it sent, and its (absent) filesystem effects. -/
structure AsyncResult where
  response : Response
  options : PredictionOptions
  mkdirCalls : Nat
  writes : List String
  fsFiles : List (String × Bool)
deriving DecidableEq, Repr

/-- The `minimax_image_01_generate_async` handler body (index.ts lines
265-340): build the prediction request (webhook fields only when a webhook
is given), call `replicate.predictions.create`, and format either the
success text or — via the catch at lines 325-339 — an error envelope.  It
touches no files. -/
def runGenerateAsync (a : AsyncArgs) (create : PredOutcome) : AsyncResult :=
  let opts := buildPredictionOptions a
  match create with
  | .err m =>
    { response := errEnvelope ("Failed to create prediction: " ++ m),
      options := opts, mkdirCalls := 0, writes := [], fsFiles := [] }
  | .ok p =>
    { response := { text := asyncSuccessText a p, isError := false },
      options := opts, mkdirCalls := 0, writes := [], fsFiles := [] }

/-! ## `minimax_image_01_get_prediction` handler (index.ts lines 359-472) -/

/-- Header of the status report (index.ts lines 367-373). -/
def predStatusHeader (pid : String) (p : Prediction) : String :=
  "Prediction Status for " ++ pid ++ ":\n\n" ++
  "Status: " ++ p.status ++ "\n" ++
  "Model: " ++ p.model ++ "\n" ++
  "Created: " ++ p.created_at ++ "\n" ++
  optLine "Started: " p.started_at ++ "\n" ++
  optLine "Completed: " p.completed_at

/-- The input echo section (index.ts lines 376-384). -/
def inputSection (o : Option PredInput) : String :=
  match o with
  | none => ""
  | some inp =>
    "\n\nInput Parameters:" ++
    "\nPrompt: \"" ++ inp.prompt ++ "\"" ++
    (match inp.aspect_ratio with
      | some r => if r == "" then "" else "\nAspect Ratio: " ++ r
      | none => "") ++
    (match inp.number_of_images with
      | some n => if n == 0 then "" else "\nNumber of Images: " ++ natStr n
      | none => "") ++
    (match inp.prompt_optimizer with
      | some b => "\nPrompt Optimizer: " ++ boolStr b
      | none => "") ++
    (match inp.subject_reference with
      | some s => if s == "" then "" else "\nSubject Reference: " ++ s
      | none => "")

/-- The error section (index.ts lines 387-389). -/
def errorSection (o : Option String) : String :=
  match o with
  | some e => if e == "" then "" else "\n\nError: " ++ e
  | none => ""

/-- The logs section (index.ts lines 392-394). -/
def logsSection (o : Option String) : String :=
  match o with
  | some l => if l == "" then "" else "\n\nLogs:\n" ++ l
  | none => ""

/-- Embeds `prediction.input?.prompt || 'prediction'` (index.ts line 411). -/
def promptForFilename (o : Option PredInput) : String :=
  match o with
  | some inp => if inp.prompt == "" then "prediction" else inp.prompt
  | none => "prediction"

/-- One appended block per saved image (index.ts lines 435-442). -/
def predImageDetail (img : SavedImage) : String :=
  "\n\nImage " ++ natStr img.index ++ ":" ++
  (match img.localPath with
    | some p => "\n  Local Path: " ++ p
    | none => "") ++
  "\n  Original URL: " ++ img.url ++
  "\n  Filename: " ++ img.filename

/-- What the get-prediction handler produces: the envelope, the saved-image
list, and its filesystem effects (directory creations, write attempts in
order, resulting on-disk state). -/
structure GetPredResult where
  response : Response
  saved : List SavedImage
  mkdirCalls : Nat
  writes : List String
  fsFiles : List (String × Bool)
deriving DecidableEq, Repr

/-- The `minimax_image_01_get_prediction` handler body (index.ts lines
359-472): fetch the prediction, render status/input/error/logs, and only
when `prediction.output` is present *and* the status is `succeeded` *and*
the output is non-empty, create the images directory and attempt one save
per output element in order; every thrown error is caught at lines 457-471
and becomes an error-flagged envelope. -/
def runGetPrediction (pid : String) (remote : PredOutcome)
    (save : Nat → WriteOutcome) (clock : Nat → Instant) : GetPredResult :=
  match remote with
  | .err m =>
    { response := errEnvelope ("Failed to get prediction status: " ++ m),
      saved := [], mkdirCalls := 0, writes := [], fsFiles := [] }
  | .ok p =>
    let base := predStatusHeader pid p ++ inputSection p.input ++
      errorSection p.error ++ logsSection p.logs
    match p.output with
    | some files =>
      if p.status == "succeeded" then
        if files.length > 0 then
          let prompt := promptForFilename p.input
          let saved := saveImages prompt save clock 0 files
          let text := base ++ "\n\nGenerated Images:" ++
            String.join (saved.map predImageDetail) ++
            (if saved.any (fun img => img.localPath.isSome) then
              "\n\nImages have been saved to the local 'images' directory in JPEG format."
            else "")
          { response := { text := text, isError := false }, saved := saved,
            mkdirCalls := 1, writes := writePaths prompt clock 0 files,
            fsFiles := writeEffects prompt save clock 0 files }
        else
          { response := { text := base, isError := false }, saved := [],
            mkdirCalls := 0, writes := [], fsFiles := [] }
      else
        { response := { text := base, isError := false }, saved := [],
          mkdirCalls := 0, writes := [], fsFiles := [] }
    | none =>
      { response := { text := base, isError := false }, saved := [],
        mkdirCalls := 0, writes := [], fsFiles := [] }

/-! ## `minimax_image_01_cancel_prediction` handler (index.ts lines 491-531) -/

/-- The cancel success text (index.ts lines 499-507). -/
def cancelText (pid : String) (p : Prediction) : String :=
  "Prediction " ++ pid ++ " has been cancelled.\n\n" ++
  ("Status: " ++ p.status) ++ "\n" ++
  "Model: " ++ p.model ++ "\n" ++
  "Created: " ++ p.created_at ++ "\n" ++
  optLine "Started: " p.started_at ++ "\n" ++
  optLine "Completed: " p.completed_at ++ "\n\n" ++
  "The prediction has been stopped and will not consume additional resources."

/-- What the cancel handler produces: the envelope and the remote status it
reported back (when the remote call succeeded). -/
structure CancelResult where
  response : Response
  reportedStatus : Option String
deriving DecidableEq, Repr

/-- The `minimax_image_01_cancel_prediction` handler body (index.ts lines
491-531): call `replicate.predictions.cancel` and report whatever status
the remote system returned; any thrown error is caught at lines 516-530
and becomes an error-flagged envelope. -/
def runCancel (pid : String) (remote : PredOutcome) : CancelResult :=
  match remote with
  | .err m =>
    { response := errEnvelope ("Failed to cancel prediction: " ++ m),
      reportedStatus := none }
  | .ok p =>
    { response := { text := cancelText pid p, isError := false },
      reportedStatus := some p.status }

/-! ## Substring occurrence -/

/-- Does `needle` occur at the start of `hay`? -/
def listStarts : List Char → List Char → Bool
  | [], _ => true
  | _ :: _, [] => false
  | a :: as, b :: bs => a == b && listStarts as bs

/-- Does `needle` occur as a contiguous substring of `hay`? -/
def containsSub (needle : List Char) : List Char → Bool
  | [] => listStarts needle []
  | c :: rest => listStarts needle (c :: rest) || containsSub needle rest

/-- Substring occurrence on strings. -/
def strContains (needle hay : String) : Bool :=
  containsSub needle.data hay.data

theorem listStarts_self_append (l t : List Char) :
    listStarts l (l ++ t) = true := by
  induction l with
  | nil => rfl
  | cons a as ih => simp [listStarts, ih]

theorem containsSub_nil_needle (h : List Char) : containsSub [] h = true := by
  cases h <;> simp [containsSub, listStarts]

theorem containsSub_self_append (n t : List Char) :
    containsSub n (n ++ t) = true := by
  cases n with
  | nil => simpa using containsSub_nil_needle t
  | cons a as =>
    simp only [containsSub, List.cons_append, Bool.or_eq_true]
    exact Or.inl (listStarts_self_append (a :: as) t)

theorem containsSub_append_left (n h x : List Char)
    (hc : containsSub n h = true) : containsSub n (x ++ h) = true := by
  induction x with
  | nil => simpa using hc
  | cons c x ih =>
    simp only [containsSub, List.cons_append, Bool.or_eq_true]
    exact Or.inr ih

theorem containsSub_middle (n u v : List Char) :
    containsSub n (u ++ (n ++ v)) = true :=
  containsSub_append_left n (n ++ v) u (containsSub_self_append n v)

theorem string_data_append (a b : String) : (a ++ b).data = a.data ++ b.data :=
  rfl

theorem strContains_of_eq (n x u v : String) (hx : x = u ++ (n ++ v)) :
    strContains n x = true := by
  subst hx
  unfold strContains
  rw [string_data_append, string_data_append]
  exact containsSub_middle n.data u.data v.data

theorem listStarts_extend (n h t : List Char)
    (hs : listStarts n h = true) : listStarts n (h ++ t) = true := by
  induction n generalizing h with
  | nil => rfl
  | cons a as ih =>
    cases h with
    | nil => simp [listStarts] at hs
    | cons b bs =>
      simp only [listStarts, Bool.and_eq_true] at hs
      simp only [List.cons_append, listStarts, Bool.and_eq_true]
      exact ⟨hs.1, ih bs hs.2⟩

theorem containsSub_append_right (n h x : List Char)
    (hc : containsSub n h = true) : containsSub n (h ++ x) = true := by
  induction h with
  | nil =>
    simp only [containsSub] at hc
    cases n with
    | nil => exact containsSub_nil_needle x
    | cons a as => simp [listStarts] at hc
  | cons c h ih =>
    simp only [containsSub, Bool.or_eq_true] at hc
    simp only [List.cons_append, containsSub, Bool.or_eq_true]
    rcases hc with hc | hc
    · exact Or.inl (listStarts_extend _ _ _ hc)
    · exact Or.inr (ih hc)

theorem strContains_trans_middle (n d u v x : String)
    (hd : strContains n d = true) (hx : x = u ++ (d ++ v)) :
    strContains n x = true := by
  subst hx
  unfold strContains
  rw [string_data_append, string_data_append]
  exact containsSub_append_left _ _ _
    (containsSub_append_right _ _ _ hd)

/-! ## Structure of the save loop -/

/-- The entry the save loop records for the output element at absolute
position `k` (0-based). -/
def mkSaved (prompt : String) (save : Nat → WriteOutcome)
    (clock : Nat → Instant) (k : Nat) (f : ImageFile) : SavedImage :=
  let filename := filenameStr prompt (k + 1) (clock k)
  match save k with
  | .ok =>
    { index := k + 1, filename := filename,
      localPath := some (imagesDir ++ "/" ++ filename), url := f.url }
  | _ =>
    { index := k + 1, filename := filename, localPath := none, url := f.url }

theorem saveImages_cons (prompt : String) (save : Nat → WriteOutcome)
    (clock : Nat → Instant) (j : Nat) (f : ImageFile) (rest : List ImageFile) :
    saveImages prompt save clock j (f :: rest) =
      mkSaved prompt save clock j f ::
        saveImages prompt save clock (j + 1) rest := by
  cases h : save j <;> simp [saveImages, mkSaved, h]

theorem saveImages_length (prompt : String) (save : Nat → WriteOutcome)
    (clock : Nat → Instant) :
    ∀ (files : List ImageFile) (j : Nat),
      (saveImages prompt save clock j files).length = files.length := by
  intro files
  induction files with
  | nil => intro j; rfl
  | cons f rest ih =>
    intro j
    rw [saveImages_cons]
    simp [ih (j + 1)]

theorem saveImages_getElem? (prompt : String) (save : Nat → WriteOutcome)
    (clock : Nat → Instant) :
    ∀ (files : List ImageFile) (j i : Nat),
      (saveImages prompt save clock j files)[i]? =
        (files[i]?).map (fun f => mkSaved prompt save clock (j + i) f) := by
  intro files
  induction files with
  | nil => intro j i; simp [saveImages]
  | cons f rest ih =>
    intro j i
    rw [saveImages_cons]
    cases i with
    | zero => simp
    | succ i =>
      simp only [List.getElem?_cons_succ]
      rw [ih (j + 1) i]
      have : j + 1 + i = j + (i + 1) := by omega
      rw [this]

theorem writePaths_cons (prompt : String) (clock : Nat → Instant) (j : Nat)
    (f : ImageFile) (rest : List ImageFile) :
    writePaths prompt clock j (f :: rest) =
      imagePath prompt (j + 1) (clock j) :: writePaths prompt clock (j + 1) rest :=
  rfl

theorem writePaths_length (prompt : String) (clock : Nat → Instant) :
    ∀ (files : List ImageFile) (j : Nat),
      (writePaths prompt clock j files).length = files.length := by
  intro files
  induction files with
  | nil => intro j; rfl
  | cons f rest ih =>
    intro j
    rw [writePaths_cons]
    simp [ih (j + 1)]

theorem writePaths_getElem? (prompt : String) (clock : Nat → Instant) :
    ∀ (files : List ImageFile) (j i : Nat),
      (writePaths prompt clock j files)[i]? =
        (files[i]?).map (fun _ => imagePath prompt (j + i + 1) (clock (j + i))) := by
  intro files
  induction files with
  | nil => intro j i; simp [writePaths]
  | cons f rest ih =>
    intro j i
    rw [writePaths_cons]
    cases i with
    | zero => simp
    | succ i =>
      simp only [List.getElem?_cons_succ]
      rw [ih (j + 1) i]
      have : j + 1 + i = j + (i + 1) := by omega
      rw [this]

/-! ## Structure of the formatted generate response -/

theorem genNote_eq_degraded_iff (saved : List SavedImage) :
    genNote saved = degradedNote ↔ ∀ img ∈ saved, img.localPath = none := by
  by_cases h : saved.any (fun img => img.localPath.isSome) = true
  · obtain ⟨img, hmem, hsome⟩ := List.any_eq_true.mp h
    apply iff_of_false
    · simp [genNote, h]
      decide
    · intro hall
      rw [hall img hmem] at hsome
      simp at hsome
  · apply iff_of_true
    · simp [genNote, h]
    · intro img hmem
      rw [List.any_eq_true] at h
      push_neg at h
      have := h img hmem
      simpa using this

theorem genNote_eq_saved_iff (saved : List SavedImage) :
    genNote saved = savedNote ↔ ∃ img ∈ saved, img.localPath.isSome = true := by
  by_cases h : saved.any (fun img => img.localPath.isSome) = true
  · apply iff_of_true
    · simp [genNote, h]
    · exact List.any_eq_true.mp h
  · apply iff_of_false
    · simp [genNote, h]
      decide
    · intro hex
      exact h (List.any_eq_true.mpr hex)

/-- Joining with `.join(sep)` splits around each of its members. -/
theorem joinSep_mem_split (sep : String) :
    ∀ (l : List String) (x : String), x ∈ l →
      ∃ u v, joinSep sep l = u ++ (x ++ v) := by
  intro l
  induction l with
  | nil => intro x hx; cases hx
  | cons a rest ih =>
    intro x hx
    cases rest with
    | nil =>
      rcases List.mem_singleton.mp hx with rfl
      exact ⟨"", "", by simp [joinSep, String.empty_append, String.append_empty]⟩
    | cons b rest' =>
      rcases List.mem_cons.mp hx with rfl | hx
      · refine ⟨"", sep ++ joinSep sep (b :: rest'), ?_⟩
        simp [joinSep, String.empty_append, String.append_assoc]
      · obtain ⟨u, v, hu⟩ := ih x hx
        refine ⟨a ++ sep ++ u, v, ?_⟩
        simp [joinSep, hu, String.append_assoc]

/-- Everything of the generate response text before the per-image details. -/
def genTextHeader (p : GenParams) (n : Nat) : String :=
  "Successfully generated " ++ natStr n ++
  " image(s) using minimax/image-01:\n\n" ++
  "Prompt: \"" ++ p.prompt ++ "\"\n" ++
  "Aspect Ratio: " ++ p.aspect_ratio ++ "\n" ++
  "Number of Images: " ++ natStr p.number_of_images ++ "\n" ++
  "Prompt Optimizer: " ++ boolStr p.prompt_optimizer ++ "\n" ++
  (match p.subject_reference with
    | some s => if s == "" then "" else "Subject Reference: " ++ s
    | none => "") ++ "\n\n" ++
  "Generated Images:\n"

/-- The generate response text decomposed around the per-image details and
the final note. -/
theorem genSuccessText_decompose (p : GenParams) (saved : List SavedImage)
    (note : String) :
    genSuccessText p saved note =
      genTextHeader p saved.length ++
        (joinSep "\n\n" (saved.map imageDetail) ++ ("\n\n" ++ note)) := by
  simp [genSuccessText, genTextHeader, String.append_assoc]

/-- The generate response text decomposed around the final note. -/
theorem genSuccessText_decompose_note (p : GenParams) (saved : List SavedImage)
    (note : String) :
    genSuccessText p saved note =
      (genTextHeader p saved.length ++
          joinSep "\n\n" (saved.map imageDetail) ++ "\n\n") ++
        (note ++ "") := by
  simp [genSuccessText, genTextHeader, String.append_assoc,
    String.append_empty]

/-- Each image detail block splits around its `Original URL` line. -/
theorem imageDetail_decompose (img : SavedImage) :
    imageDetail img =
      ("Image " ++ natStr img.index ++ ":" ++
        (match img.localPath with
          | some p => "\n  Local Path: " ++ p
          | none => "")) ++
      (("\n  Original URL: " ++ img.url) ++
        ("\n  Filename: " ++ img.filename)) := by
  simp [imageDetail, String.append_assoc]

/-- Every saved image's original URL occurs in the formatted text. -/
theorem genSuccessText_contains_url (p : GenParams) (saved : List SavedImage)
    (note : String) (img : SavedImage) (hmem : img ∈ saved) :
    strContains ("\n  Original URL: " ++ img.url)
      (genSuccessText p saved note) = true := by
  have hd : strContains ("\n  Original URL: " ++ img.url)
      (imageDetail img) = true :=
    strContains_of_eq _ _ _ _ (imageDetail_decompose img)
  obtain ⟨u, v, hj⟩ := joinSep_mem_split "\n\n" (saved.map imageDetail)
    (imageDetail img) (List.mem_map_of_mem imageDetail hmem)
  have hjoin : strContains ("\n  Original URL: " ++ img.url)
      (joinSep "\n\n" (saved.map imageDetail)) = true :=
    strContains_trans_middle _ _ u v _ hd hj
  exact strContains_trans_middle _ _ _ _ _ hjoin
    (genSuccessText_decompose p saved note)

/-- The chosen final-line note occurs in the formatted text. -/
theorem genSuccessText_contains_note (p : GenParams) (saved : List SavedImage)
    (note : String) :
    strContains note (genSuccessText p saved note) = true :=
  strContains_of_eq _ _ _ _ (genSuccessText_decompose_note p saved note)

/-- Reduction of the generate handler when the remote run returned a
non-empty list of files. -/
theorem runGenerate_ok (p : GenParams) (save : Nat → WriteOutcome)
    (clock : Nat → Instant) (files : List ImageFile) (hne : files ≠ []) :
    runGenerate p (.ok (some files)) save clock =
      { response :=
          { text := genSuccessText p (saveImages p.prompt save clock 0 files)
              (genNote (saveImages p.prompt save clock 0 files)),
            isError := false },
        saved := saveImages p.prompt save clock 0 files,
        note := some (genNote (saveImages p.prompt save clock 0 files)),
        remoteCalls := 1, mkdirCalls := 1,
        fsFiles := writeEffects p.prompt save clock 0 files } := by
  have h0 : ¬ files.length = 0 := by
    simpa [List.length_eq_zero] using hne
  simp [runGenerate, h0]

theorem runGenerate_ok_saved (p : GenParams) (save : Nat → WriteOutcome)
    (clock : Nat → Instant) (files : List ImageFile) (hne : files ≠ []) :
    (runGenerate p (.ok (some files)) save clock).saved =
      saveImages p.prompt save clock 0 files := by
  rw [runGenerate_ok p save clock files hne]

theorem runGenerate_ok_response (p : GenParams) (save : Nat → WriteOutcome)
    (clock : Nat → Instant) (files : List ImageFile) (hne : files ≠ []) :
    (runGenerate p (.ok (some files)) save clock).response =
      { text := genSuccessText p (saveImages p.prompt save clock 0 files)
          (genNote (saveImages p.prompt save clock 0 files)),
        isError := false } := by
  rw [runGenerate_ok p save clock files hne]

theorem runGenerate_ok_note (p : GenParams) (save : Nat → WriteOutcome)
    (clock : Nat → Instant) (files : List ImageFile) (hne : files ≠ []) :
    (runGenerate p (.ok (some files)) save clock).note =
      some (genNote (saveImages p.prompt save clock 0 files)) := by
  rw [runGenerate_ok p save clock files hne]

theorem runGenerate_ok_fsFiles (p : GenParams) (save : Nat → WriteOutcome)
    (clock : Nat → Instant) (files : List ImageFile) (hne : files ≠ []) :
    (runGenerate p (.ok (some files)) save clock).fsFiles =
      writeEffects p.prompt save clock 0 files := by
  rw [runGenerate_ok p save clock files hne]

/-- A failed write that left partial bytes shows up (incomplete and never
removed) in the final on-disk state. -/
theorem writeEffects_mem_partial (prompt : String) (save : Nat → WriteOutcome)
    (clock : Nat → Instant) :
    ∀ (files : List ImageFile) (j i : Nat) (f : ImageFile),
      files[i]? = some f → save (j + i) = .failPartial →
      (imagePath prompt (j + i + 1) (clock (j + i)), false) ∈
        writeEffects prompt save clock j files := by
  intro files
  induction files with
  | nil => intro j i f hf _; simp at hf
  | cons g rest ih =>
    intro j i f hf hsave
    cases i with
    | zero =>
      simp only [Nat.add_zero] at hsave ⊢
      simp [writeEffects, hsave]
    | succ i =>
      simp only [List.getElem?_cons_succ] at hf
      have hmem := ih (j + 1) i f hf (by
        have : j + 1 + i = j + (i + 1) := by omega
        rw [this]; exact hsave)
      have heq : j + 1 + i = j + (i + 1) := by omega
      rw [heq] at hmem
      unfold writeEffects
      cases save j <;> simp [hmem]

/-! ## Claim theorems -/

/-- C1: a `minimax_image_01_generate` call whose arguments violate the
declared input schema — `number_of_images` outside [1,9] (for example 0 or
10), a missing `prompt`, or an `aspect_ratio` outside the fixed 8-value
enum — is rejected with a local validation error and issues zero remote
calls: `replicate.run` is never invoked. -/
theorem claim1_invalid_args_rejected_locally
    (a : RawGenArgs) (run : RunOutcome) (save : Nat → WriteOutcome)
    (clock : Nat → Instant)
    (hbad : (∃ n, a.number_of_images = some n ∧ (n < 1 ∨ 9 < n)) ∨
      a.prompt = none ∨
      (∃ r, a.aspect_ratio = some r ∧ r ∉ aspectRatios)) :
    (dispatchGenerate a run save clock).remoteCalls = 0 ∧
    (dispatchGenerate a run save clock).response.isError = true ∧
    (dispatchGenerate a run save clock).response.text =
      "ValidationError: arguments do not satisfy the declared input schema" := by
  have hval : ¬ validGenArgs a = true := by
    rcases hbad with ⟨n, hn, hout⟩ | hp | ⟨r, hr, hout⟩
    · simp [validGenArgs, hn]
      intro _ _
      omega
    · simp [validGenArgs, hp]
    · simp [validGenArgs, hr]
      intro _
      exact fun hmem => absurd hmem hout
  simp [dispatchGenerate, hval, errEnvelope]

/-- Witness for C1 at `number_of_images = 0`. -/
theorem claim1_witness :
    ((∃ n, (RawGenArgs.mk (some "a cat") none (some 0) none none).number_of_images
          = some n ∧ (n < 1 ∨ 9 < n)) ∨
      (RawGenArgs.mk (some "a cat") none (some 0) none none).prompt = none ∨
      (∃ r, (RawGenArgs.mk (some "a cat") none (some 0) none none).aspect_ratio
          = some r ∧ r ∉ aspectRatios)) ∧
    (dispatchGenerate (RawGenArgs.mk (some "a cat") none (some 0) none none)
      (.ok none) (fun _ => .ok) (fun _ => ⟨2025, 1, 2, 3, 4, 5, 6⟩)).remoteCalls
        = 0 := by
  refine ⟨Or.inl ⟨0, rfl, by decide⟩, ?_⟩
  exact (claim1_invalid_args_rejected_locally _ _ _ _
    (Or.inl ⟨0, rfl, by decide⟩)).1

/-- C7: for every image count n in [1,9] and valid aspect ratio, when the
remote call returns n references the generate tool returns exactly n
per-image asset entries, one per reference, with 1-based ordinal indices
matching the output order. -/
theorem claim7_entry_per_reference
    (p : GenParams) (save : Nat → WriteOutcome) (clock : Nat → Instant)
    (files : List ImageFile)
    (hn1 : 1 ≤ p.number_of_images) (hn9 : p.number_of_images ≤ 9)
    (hratio : p.aspect_ratio ∈ aspectRatios)
    (hlen : files.length = p.number_of_images) :
    (runGenerate p (.ok (some files)) save clock).saved.length
        = files.length ∧
    (∀ i : Nat, ((runGenerate p (.ok (some files)) save clock).saved[i]?).map
        SavedImage.index = (files[i]?).map (fun _ => i + 1)) ∧
    (∀ i : Nat, ((runGenerate p (.ok (some files)) save clock).saved[i]?).map
        SavedImage.url = (files[i]?).map ImageFile.url) := by
  have hne : files ≠ [] := by
    intro h
    subst h
    simp at hlen
    omega
  rw [runGenerate_ok_saved p save clock files hne]
  refine ⟨saveImages_length _ _ _ _ _, ?_, ?_⟩
  · intro i
    rw [saveImages_getElem?]
    cases hfi : files[i]? with
    | none => simp
    | some f =>
      cases hs : save i <;> simp [mkSaved, hs]
  · intro i
    rw [saveImages_getElem?]
    cases hfi : files[i]? with
    | none => simp
    | some f =>
      cases hs : save i <;> simp [mkSaved, hs]

/-- Witness for C7: two references, count 2, ratio 16:9. -/
theorem claim7_witness :
    (runGenerate (GenParams.mk "a cat" "16:9" 2 true none)
        (.ok (some [ImageFile.mk "http://one", ImageFile.mk "http://two"]))
        (fun _ => .ok) (fun _ => ⟨2025, 1, 2, 3, 4, 5, 6⟩)).saved.length
      = ([ImageFile.mk "http://one", ImageFile.mk "http://two"] :
          List ImageFile).length :=
  (claim7_entry_per_reference _ _ _ _ (by decide) (by decide) (by decide)
    (by decide)).1

/-- C8: a generate call whose remote run resolves without error but yields
zero images — output missing or an empty array — produces an error-flagged
result (`EmptyOutputError` in the spec's taxonomy) rather than a success. -/
theorem claim8_empty_output_error
    (p : GenParams) (save : Nat → WriteOutcome) (clock : Nat → Instant) :
    (runGenerate p (.ok none) save clock).response.isError = true ∧
    (runGenerate p (.ok none) save clock).response.text =
      "Failed to generate images: No images returned from the API" ∧
    (runGenerate p (.ok (some [])) save clock).response.isError = true ∧
    (runGenerate p (.ok (some [])) save clock).response.text =
      "Failed to generate images: No images returned from the API" :=
  ⟨rfl, rfl, by simp [runGenerate, errEnvelope], by simp [runGenerate, errEnvelope]⟩

/-- C2 (amended): for a generate response built from remote references,
the per-asset results carry a local path exactly for the successfully
saved assets and `null` for the failed ones, and every asset's original
URL is still listed in the formatted text; but the degraded-save note is
chosen only when every save failed — as soon as one save succeeds the
response carries the full-success note, so a partial failure is not
flagged in the text. -/
theorem claim2_partial_save_fields_and_note
    (p : GenParams) (save : Nat → WriteOutcome) (clock : Nat → Instant)
    (files : List ImageFile) (hne : files ≠ []) :
    (∀ i : Nat, (((runGenerate p (.ok (some files)) save clock).saved[i]?).map
        (fun s => s.localPath.isSome)) =
      (files[i]?).map (fun _ => save i == WriteOutcome.ok)) ∧
    (∀ i : Nat, (((runGenerate p (.ok (some files)) save clock).saved[i]?).map
        SavedImage.url) = (files[i]?).map ImageFile.url) ∧
    (∀ img ∈ (runGenerate p (.ok (some files)) save clock).saved,
      strContains ("\n  Original URL: " ++ img.url)
        (runGenerate p (.ok (some files)) save clock).response.text = true) ∧
    (runGenerate p (.ok (some files)) save clock).note =
      some (genNote (runGenerate p (.ok (some files)) save clock).saved) ∧
    (genNote (runGenerate p (.ok (some files)) save clock).saved =
        degradedNote ↔
      ∀ img ∈ (runGenerate p (.ok (some files)) save clock).saved,
        img.localPath = none) ∧
    strContains (genNote (runGenerate p (.ok (some files)) save clock).saved)
      (runGenerate p (.ok (some files)) save clock).response.text = true := by
  rw [runGenerate_ok_saved p save clock files hne,
    runGenerate_ok_note p save clock files hne,
    runGenerate_ok_response p save clock files hne]
  refine ⟨?_, ?_, ?_, rfl, genNote_eq_degraded_iff _, ?_⟩
  · intro i
    rw [saveImages_getElem?]
    cases hfi : files[i]? with
    | none => simp
    | some f =>
      cases hs : save i <;> simp [mkSaved, hs]
  · intro i
    rw [saveImages_getElem?]
    cases hfi : files[i]? with
    | none => simp
    | some f =>
      cases hs : save i <;> simp [mkSaved, hs]
  · intro img hmem
    exact genSuccessText_contains_url p _ _ img hmem
  · exact genSuccessText_contains_note p _ _

set_option maxRecDepth 40000 in
/-- C2 counterexample: with three references where the middle save fails
and the other two succeed, the response text does NOT flag degraded local
save — it carries the full-success note (the code's only degraded-save
flag appears when every save fails). -/
theorem claim2_counterexample :
    ((runGenerate (GenParams.mk "a cat" "1:1" 3 true none)
        (.ok (some [ImageFile.mk "http://one", ImageFile.mk "http://two",
          ImageFile.mk "http://three"]))
        (fun i => if i == 1 then WriteOutcome.failClean else WriteOutcome.ok)
        (fun _ => ⟨2025, 1, 2, 3, 4, 5, 6⟩)).saved.map
          (fun s => s.localPath.isSome)) = [true, false, true] ∧
    strContains degradedNote
      (runGenerate (GenParams.mk "a cat" "1:1" 3 true none)
        (.ok (some [ImageFile.mk "http://one", ImageFile.mk "http://two",
          ImageFile.mk "http://three"]))
        (fun i => if i == 1 then WriteOutcome.failClean else WriteOutcome.ok)
        (fun _ => ⟨2025, 1, 2, 3, 4, 5, 6⟩)).response.text = false ∧
    strContains savedNote
      (runGenerate (GenParams.mk "a cat" "1:1" 3 true none)
        (.ok (some [ImageFile.mk "http://one", ImageFile.mk "http://two",
          ImageFile.mk "http://three"]))
        (fun i => if i == 1 then WriteOutcome.failClean else WriteOutcome.ok)
        (fun _ => ⟨2025, 1, 2, 3, 4, 5, 6⟩)).response.text = true := by
  decide

/-- Witness for C2: a concrete partial-failure run. -/
theorem claim2_witness :
    (runGenerate (GenParams.mk "a cat" "1:1" 3 true none)
        (.ok (some [ImageFile.mk "http://one", ImageFile.mk "http://two",
          ImageFile.mk "http://three"]))
        (fun i => if i == 1 then WriteOutcome.failClean else WriteOutcome.ok)
        (fun _ => ⟨2025, 1, 2, 3, 4, 5, 6⟩)).note =
      some (genNote (runGenerate (GenParams.mk "a cat" "1:1" 3 true none)
        (.ok (some [ImageFile.mk "http://one", ImageFile.mk "http://two",
          ImageFile.mk "http://three"]))
        (fun i => if i == 1 then WriteOutcome.failClean else WriteOutcome.ok)
        (fun _ => ⟨2025, 1, 2, 3, 4, 5, 6⟩)).saved) :=
  (claim2_partial_save_fields_and_note _ _ _ _ (by decide)).2.2.2.1

/-- C3 (amended): a failed per-asset write is caught inside the save loop:
the per-asset result carries the original URL and no local path, and the
response remains a success envelope — the failure never escalates to an
overall error; but the partially written file is NOT removed: the source
has no cleanup code, so a write failure that left partial bytes leaves
that file in the final on-disk state. -/
theorem claim3_save_failure_contained
    (p : GenParams) (save : Nat → WriteOutcome) (clock : Nat → Instant)
    (files : List ImageFile) (hne : files ≠ []) :
    (runGenerate p (.ok (some files)) save clock).response.isError = false ∧
    (∀ i : Nat, ∀ f, files[i]? = some f → save i ≠ WriteOutcome.ok →
      (runGenerate p (.ok (some files)) save clock).saved[i]? =
        some (SavedImage.mk (i + 1) (filenameStr p.prompt (i + 1) (clock i))
          none f.url)) ∧
    (∀ i : Nat, ∀ f, files[i]? = some f → save i = WriteOutcome.failPartial →
      (imagePath p.prompt (i + 1) (clock i), false) ∈
        (runGenerate p (.ok (some files)) save clock).fsFiles) := by
  refine ⟨?_, ?_, ?_⟩
  · rw [runGenerate_ok_response p save clock files hne]
  · intro i f hf hs
    rw [runGenerate_ok_saved p save clock files hne, saveImages_getElem?, hf]
    cases hsv : save i with
    | ok => exact absurd hsv hs
    | failPartial => simp [mkSaved, hsv]
    | failClean => simp [mkSaved, hsv]
  · intro i f hf hs
    rw [runGenerate_ok_fsFiles p save clock files hne]
    have hm := writeEffects_mem_partial p.prompt save clock files 0 i f hf
      (by simpa using hs)
    simpa using hm

set_option maxRecDepth 40000 in
/-- C3 counterexample: a write failure that left partial bytes leaves the
incomplete file on disk — it is not removed — even though the response is
still a success envelope. -/
theorem claim3_counterexample :
    (runGenerate (GenParams.mk "a cat" "1:1" 1 true none)
        (.ok (some [ImageFile.mk "http://img"]))
        (fun _ => WriteOutcome.failPartial)
        (fun _ => ⟨2025, 1, 2, 3, 4, 5, 6⟩)).fsFiles =
      [("images/minimax_image_01_a_cat_1_2025-01-02T03-04-05-006Z.jpeg",
        false)] ∧
    (runGenerate (GenParams.mk "a cat" "1:1" 1 true none)
        (.ok (some [ImageFile.mk "http://img"]))
        (fun _ => WriteOutcome.failPartial)
        (fun _ => ⟨2025, 1, 2, 3, 4, 5, 6⟩)).response.isError = false := by
  decide

/-- Witness for C3: a concrete failed save recorded with the original URL
and no local path. -/
theorem claim3_witness :
    (runGenerate (GenParams.mk "a dog" "1:1" 1 true none)
        (.ok (some [ImageFile.mk "http://img"]))
        (fun _ => WriteOutcome.failClean)
        (fun _ => ⟨2025, 1, 2, 3, 4, 5, 6⟩)).saved[0]? =
      some (SavedImage.mk 1 (filenameStr "a dog" 1 ⟨2025, 1, 2, 3, 4, 5, 6⟩)
        none "http://img") :=
  (claim3_save_failure_contained _ _ _ _ (by decide)).2.1 0 _ rfl (by decide)

/-- C5: every tool handler (generate, generate-async, get-prediction,
cancel-prediction) catches any exception from the remote adapter at its
boundary and returns a well-formed envelope flagged as an error; and the
cancel handler, invoked (again) on an already-cancelled job, raises
nothing and only reports the remote system's (possibly unchanged)
status. -/
theorem claim5_handlers_catch_all
    (p : GenParams) (a : AsyncArgs) (pid pid2 pid3 : String) (m : String)
    (save : Nat → WriteOutcome) (clock : Nat → Instant) (pr : Prediction) :
    (runGenerate p (.err m) save clock).response.isError = true ∧
    (runGenerateAsync a (.err m)).response.isError = true ∧
    (runGetPrediction pid (.err m) save clock).response.isError = true ∧
    (runCancel pid2 (.err m)).response.isError = true ∧
    (runCancel pid3 (.ok pr)).response.isError = false ∧
    (runCancel pid3 (.ok pr)).reportedStatus = some pr.status :=
  ⟨rfl, rfl, rfl, rfl, rfl, rfl⟩

/-- C9: the async handler sets the webhook URL and event filter on the
prediction request only when a webhook URL is present — when absent,
neither field is set — and it performs no asset downloads or local
filesystem writes. -/
theorem claim9_webhook_passthrough_no_writes
    (a : AsyncArgs) (create : PredOutcome) :
    ((runGenerateAsync a create).options.webhook ≠ none ∨
        (runGenerateAsync a create).options.webhook_events_filter ≠ none →
      a.webhook.isSome = true) ∧
    (a.webhook = none →
      (runGenerateAsync a create).options.webhook = none ∧
      (runGenerateAsync a create).options.webhook_events_filter = none) ∧
    (runGenerateAsync a create).mkdirCalls = 0 ∧
    (runGenerateAsync a create).writes = [] ∧
    (runGenerateAsync a create).fsFiles = [] := by
  have hopts : (runGenerateAsync a create).options =
      buildPredictionOptions a := by
    cases create <;> rfl
  have hmk : (runGenerateAsync a create).mkdirCalls = 0 := by
    cases create <;> rfl
  have hw : (runGenerateAsync a create).writes = [] := by
    cases create <;> rfl
  have hf : (runGenerateAsync a create).fsFiles = [] := by
    cases create <;> rfl
  rw [hopts]
  refine ⟨?_, ?_, hmk, hw, hf⟩
  · intro hset
    by_cases ht : optTruthy a.webhook = true
    · cases hwb : a.webhook with
      | none => rw [hwb] at ht; simp [optTruthy] at ht
      | some s => rfl
    · rw [Bool.not_eq_true] at ht
      rcases hset with hs | hs <;> exact absurd (by simp [buildPredictionOptions, ht]) hs
  · intro hnone
    have ht : optTruthy a.webhook = false := by
      rw [hnone]; rfl
    simp [buildPredictionOptions, ht]

/-- Witness for C9: no webhook given, so neither webhook field is set. -/
theorem claim9_witness :
    (runGenerateAsync
        (AsyncArgs.mk "a cat" "1:1" 1 true none none ["completed"])
        (.ok (Prediction.mk "id1" "starting" "minimax/image-01" "t0"
          none none none none none none))).options.webhook = none ∧
    (runGenerateAsync
        (AsyncArgs.mk "a cat" "1:1" 1 true none none ["completed"])
        (.ok (Prediction.mk "id1" "starting" "minimax/image-01" "t0"
          none none none none none none))).options.webhook_events_filter
      = none :=
  (claim9_webhook_passthrough_no_writes _ _).2.1 rfl

/-- C6: the get-prediction handler materializes assets only for a
succeeded prediction: when the status is `succeeded` and the output is a
list of references it attempts exactly one save per reference, in output
order; for any other status it performs no local-storage writes (no
directory creation, no write attempts, no resulting on-disk files) even
when output is present. -/
theorem claim6_materialize_only_on_success
    (pid : String) (p : Prediction) (save : Nat → WriteOutcome)
    (clock : Nat → Instant) :
    (∀ files, p.output = some files → p.status = "succeeded" →
      (runGetPrediction pid (.ok p) save clock).writes =
        writePaths (promptForFilename p.input) clock 0 files ∧
      (runGetPrediction pid (.ok p) save clock).writes.length =
        files.length ∧
      (∀ i : Nat, ((runGetPrediction pid (.ok p) save clock).writes[i]?) =
        (files[i]?).map (fun _ =>
          imagePath (promptForFilename p.input) (i + 1) (clock i)))) ∧
    (p.status ≠ "succeeded" →
      (runGetPrediction pid (.ok p) save clock).writes = [] ∧
      (runGetPrediction pid (.ok p) save clock).mkdirCalls = 0 ∧
      (runGetPrediction pid (.ok p) save clock).fsFiles = []) := by
  refine ⟨?_, ?_⟩
  · intro files hout hst
    have hwrites : (runGetPrediction pid (.ok p) save clock).writes =
        writePaths (promptForFilename p.input) clock 0 files := by
      cases files with
      | nil => simp [runGetPrediction, hout, hst, writePaths]
      | cons f rest => simp [runGetPrediction, hout, hst]
    refine ⟨hwrites, ?_, ?_⟩
    · rw [hwrites, writePaths_length]
    · intro i
      rw [hwrites, writePaths_getElem?]
      simp
  · intro hst
    have hb : (p.status == "succeeded") = false := by
      simpa using hst
    cases hout : p.output with
    | none => simp [runGetPrediction, hout]
    | some files => simp [runGetPrediction, hout, hb]

/-- Witness for C6: a succeeded prediction with two references yields two
write attempts. -/
theorem claim6_witness :
    (runGetPrediction "id1"
        (.ok (Prediction.mk "id1" "succeeded" "minimax/image-01" "t0"
          none none none none none
          (some [ImageFile.mk "http://one", ImageFile.mk "http://two"])))
        (fun _ => WriteOutcome.ok)
        (fun _ => ⟨2025, 1, 2, 3, 4, 5, 6⟩)).writes.length =
      ([ImageFile.mk "http://one", ImageFile.mk "http://two"] :
        List ImageFile).length :=
  ((claim6_materialize_only_on_success "id1" _ _ _).1 _ rfl rfl).2.1

/-! ## Injectivity of the timestamp rendering -/

theorem digitChar_inj_fin :
    ∀ a b : Fin 10, Nat.digitChar a.val = Nat.digitChar b.val → a = b := by
  decide

theorem digitChar_inj10 {a b : Nat} (ha : a < 10) (hb : b < 10)
    (h : Nat.digitChar a = Nat.digitChar b) : a = b :=
  congrArg Fin.val (digitChar_inj_fin ⟨a, ha⟩ ⟨b, hb⟩ h)

theorem pad2_inj {a b : Nat} (ha : a < 100) (hb : b < 100)
    (h : pad2 a = pad2 b) : a = b := by
  simp only [pad2, List.cons.injEq, and_true] at h
  have e1 := digitChar_inj10 (Nat.mod_lt _ (by norm_num))
    (Nat.mod_lt _ (by norm_num)) h.1
  have e2 := digitChar_inj10 (Nat.mod_lt _ (by norm_num))
    (Nat.mod_lt _ (by norm_num)) h.2
  omega

theorem pad3_inj {a b : Nat} (ha : a < 1000) (hb : b < 1000)
    (h : pad3 a = pad3 b) : a = b := by
  simp only [pad3, List.cons.injEq, and_true] at h
  have e1 := digitChar_inj10 (Nat.mod_lt _ (by norm_num))
    (Nat.mod_lt _ (by norm_num)) h.1
  have e2 := digitChar_inj10 (Nat.mod_lt _ (by norm_num))
    (Nat.mod_lt _ (by norm_num)) h.2.1
  have e3 := digitChar_inj10 (Nat.mod_lt _ (by norm_num))
    (Nat.mod_lt _ (by norm_num)) h.2.2
  omega

theorem pad4_inj {a b : Nat} (ha : a < 10000) (hb : b < 10000)
    (h : pad4 a = pad4 b) : a = b := by
  simp only [pad4, List.cons.injEq, and_true] at h
  have e1 := digitChar_inj10 (Nat.mod_lt _ (by norm_num))
    (Nat.mod_lt _ (by norm_num)) h.1
  have e2 := digitChar_inj10 (Nat.mod_lt _ (by norm_num))
    (Nat.mod_lt _ (by norm_num)) h.2.1
  have e3 := digitChar_inj10 (Nat.mod_lt _ (by norm_num))
    (Nat.mod_lt _ (by norm_num)) h.2.2.1
  have e4 := digitChar_inj10 (Nat.mod_lt _ (by norm_num))
    (Nat.mod_lt _ (by norm_num)) h.2.2.2
  omega

theorem sanitizeChar_digitChar_mod (n : Nat) :
    sanitizeChar (Nat.digitChar (n % 10)) = Nat.digitChar (n % 10) := by
  have h : n % 10 < 10 := Nat.mod_lt _ (by norm_num)
  have hfin : ∀ a : Fin 10,
      sanitizeChar (Nat.digitChar a.val) = Nat.digitChar a.val := by decide
  exact hfin ⟨n % 10, h⟩

theorem sanitizeChar_dash : sanitizeChar '-' = '-' := rfl

theorem sanitizeChar_colon : sanitizeChar ':' = '-' := rfl

theorem sanitizeChar_dot : sanitizeChar '.' = '-' := rfl

theorem sanitizeChar_T : sanitizeChar 'T' = 'T' := rfl

theorem sanitizeChar_Z : sanitizeChar 'Z' = 'Z' := rfl

/-- The sanitized ISO rendering: `:` and `.` have become `-`. -/
def sanIso (t : Instant) : List Char :=
  pad4 t.y ++ '-' :: pad2 t.mo ++ '-' :: pad2 t.d ++ 'T' :: pad2 t.h ++
    '-' :: pad2 t.mi ++ '-' :: pad2 t.s ++ '-' :: pad3 t.ms ++ ['Z']

theorem sanitize_toISOString (t : Instant) :
    sanitizeTimestamp (toISOString t) = sanIso t := by
  simp [sanitizeTimestamp, toISOString, sanIso, pad2, pad3, pad4,
    sanitizeChar_digitChar_mod, sanitizeChar_dash, sanitizeChar_colon,
    sanitizeChar_dot, sanitizeChar_T, sanitizeChar_Z]

theorem sanIso_inj {t1 t2 : Instant} (h1 : t1.valid) (h2 : t2.valid)
    (h : sanIso t1 = sanIso t2) : t1 = t2 := by
  obtain ⟨hy1, hmo1, hd1, hh1, hmi1, hs1, hms1⟩ := h1
  obtain ⟨hy2, hmo2, hd2, hh2, hmi2, hs2, hms2⟩ := h2
  have h' : pad4 t1.y ++ (('-' :: pad2 t1.mo) ++ (('-' :: pad2 t1.d) ++
      (('T' :: pad2 t1.h) ++ (('-' :: pad2 t1.mi) ++ (('-' :: pad2 t1.s) ++
      (('-' :: pad3 t1.ms) ++ ['Z'])))))) =
      pad4 t2.y ++ (('-' :: pad2 t2.mo) ++ (('-' :: pad2 t2.d) ++
      (('T' :: pad2 t2.h) ++ (('-' :: pad2 t2.mi) ++ (('-' :: pad2 t2.s) ++
      (('-' :: pad3 t2.ms) ++ ['Z'])))))) := by
    simpa [sanIso, List.append_assoc] using h
  obtain ⟨ey, h'⟩ := List.append_inj h' rfl
  obtain ⟨emo, h'⟩ := List.append_inj h' rfl
  obtain ⟨ed, h'⟩ := List.append_inj h' rfl
  obtain ⟨eh, h'⟩ := List.append_inj h' rfl
  obtain ⟨emi, h'⟩ := List.append_inj h' rfl
  obtain ⟨es, h'⟩ := List.append_inj h' rfl
  obtain ⟨ems, -⟩ := List.append_inj h' rfl
  injection emo with _ emo
  injection ed with _ ed
  injection eh with _ eh
  injection emi with _ emi
  injection es with _ es
  injection ems with _ ems
  have ey2 := pad4_inj hy1 hy2 ey
  have emo2 := pad2_inj hmo1 hmo2 emo
  have ed2 := pad2_inj hd1 hd2 ed
  have eh2 := pad2_inj hh1 hh2 eh
  have emi2 := pad2_inj hmi1 hmi2 emi
  have es2 := pad2_inj hs1 hs2 es
  have ems2 := pad3_inj hms1 hms2 ems
  cases t1
  cases t2
  simp_all

/-- The filename split into its fixed head and its timestamp tail. -/
theorem generateImageFilename_decompose (prompt : List Char) (index : Nat)
    (now : Instant) :
    generateImageFilename prompt index now =
      ("minimax_image_01_".data ++ safePrompt prompt ++
          '_' :: natDigits index ++ ['_']) ++
        (sanitizeTimestamp (toISOString now) ++ ".jpeg".data) := by
  simp [generateImageFilename, List.append_assoc]

/-- C4: `generateImageFilename("A Red Panda!!!", 1)` at any instant yields
`minimax_image_01_a_red_panda_1_<timestamp>.jpeg` — the prompt lower-cased,
characters outside `[a-z0-9 ]` stripped, whitespace runs collapsed to
single underscores, truncated to 50 characters — and two calls with the
identical prompt and index at different instants yield different names. -/
theorem claim4_red_panda_shape_and_uniqueness
    (t1 t2 : Instant) (h1 : t1.valid) (h2 : t2.valid) :
    generateImageFilename "A Red Panda!!!".data 1 t1 =
      "minimax_image_01_a_red_panda_1_".data ++
        (sanitizeTimestamp (toISOString t1) ++ ".jpeg".data) ∧
    (t1 ≠ t2 →
      generateImageFilename "A Red Panda!!!".data 1 t1 ≠
        generateImageFilename "A Red Panda!!!".data 1 t2) := by
  have hhead : ("minimax_image_01_".data ++
      safePrompt "A Red Panda!!!".data ++ '_' :: natDigits 1 ++ ['_']) =
      "minimax_image_01_a_red_panda_1_".data := by decide
  constructor
  · rw [generateImageFilename_decompose, hhead]
  · intro hne heq
    apply hne
    rw [generateImageFilename_decompose, generateImageFilename_decompose]
      at heq
    have heq2 := List.append_cancel_left heq
    have hsan := List.append_cancel_right heq2
    rw [sanitize_toISOString, sanitize_toISOString] at hsan
    exact sanIso_inj h1 h2 hsan

/-- Witness for C4: two valid instants one millisecond apart yield
different names. -/
theorem claim4_witness :
    Instant.valid ⟨2025, 1, 2, 3, 4, 5, 6⟩ ∧
    Instant.valid ⟨2025, 1, 2, 3, 4, 5, 7⟩ ∧
    generateImageFilename "A Red Panda!!!".data 1 ⟨2025, 1, 2, 3, 4, 5, 6⟩ ≠
      generateImageFilename "A Red Panda!!!".data 1 ⟨2025, 1, 2, 3, 4, 5, 7⟩ :=
  ⟨by decide, by decide,
    (claim4_red_panda_shape_and_uniqueness _ _ (by decide) (by decide)).2
      (by decide)⟩

/-! ## Character classes of the derived filename -/

/-- Characters the safe-prompt segment may contain: `[a-z0-9_]`. -/
def segChar (c : Char) : Bool :=
  ('a' ≤ c && c ≤ 'z') || ('0' ≤ c && c ≤ '9') || c = '_'

/-- Characters the sanitized timestamp may contain. -/
def tsChar (c : Char) : Bool :=
  ('0' ≤ c && c ≤ '9') || c = '-' || c = 'T' || c = 'Z'

/-- Characters the whole filename may contain. -/
def fileChar (c : Char) : Bool :=
  segChar c || c = '-' || c = 'T' || c = 'Z' || c = '.'

theorem collapseGo_mem :
    ∀ (l : List Char) (b : Bool) (c : Char), c ∈ collapseGo b l →
      c = '_' ∨ (c ∈ l ∧ isWs c = false) := by
  intro l
  induction l with
  | nil => intro b c h; simp [collapseGo] at h
  | cons a rest ih =>
    intro b c h
    simp only [collapseGo] at h
    by_cases hw : isWs a = true
    · simp only [hw, if_true] at h
      by_cases hb : b = true
      · simp only [hb, if_true] at h
        rcases ih true c h with h' | ⟨hm, hnw⟩
        · exact Or.inl h'
        · exact Or.inr ⟨List.mem_cons_of_mem a hm, hnw⟩
      · simp only [Bool.not_eq_true] at hb
        simp only [hb, Bool.false_eq_true, if_false] at h
        rcases List.mem_cons.mp h with rfl | h'
        · exact Or.inl rfl
        · rcases ih true c h' with h'' | ⟨hm, hnw⟩
          · exact Or.inl h''
          · exact Or.inr ⟨List.mem_cons_of_mem a hm, hnw⟩
    · simp only [Bool.not_eq_true] at hw
      simp only [hw, Bool.false_eq_true, if_false] at h
      rcases List.mem_cons.mp h with rfl | h'
      · exact Or.inr ⟨List.mem_cons_self _ _, hw⟩
      · rcases ih false c h' with h'' | ⟨hm, hnw⟩
        · exact Or.inl h''
        · exact Or.inr ⟨List.mem_cons_of_mem a hm, hnw⟩

theorem safePrompt_segChar (p : List Char) :
    ∀ c ∈ safePrompt p, segChar c = true := by
  intro c hc
  unfold safePrompt collapseWs at hc
  have hc' := List.mem_of_mem_take hc
  rcases collapseGo_mem _ false c hc' with rfl | ⟨hm, hnw⟩
  · decide
  · have hk := (List.mem_filter.mp hm).2
    have hd : (('a' ≤ c && c ≤ 'z') || ('0' ≤ c && c ≤ '9')) = true := by
      simpa [keepChar, hnw] using hk
    simp [segChar, hd]

theorem safePrompt_len (p : List Char) : (safePrompt p).length ≤ 50 := by
  unfold safePrompt
  exact List.length_take_le _ _

theorem digitChar_mod_digit (n : Nat) :
    ('0' ≤ Nat.digitChar (n % 10) && Nat.digitChar (n % 10) ≤ '9') = true := by
  have h : n % 10 < 10 := Nat.mod_lt _ (by norm_num)
  have hfin : ∀ a : Fin 10,
      ('0' ≤ Nat.digitChar a.val && Nat.digitChar a.val ≤ '9') = true := by
    decide
  exact hfin ⟨n % 10, h⟩

theorem natDigitsAux_digits :
    ∀ (fuel n : Nat) (c : Char), c ∈ natDigitsAux fuel n →
      ('0' ≤ c && c ≤ '9') = true := by
  intro fuel
  induction fuel with
  | zero => intro n c h; simp [natDigitsAux] at h
  | succ fuel ih =>
    intro n c h
    simp only [natDigitsAux] at h
    by_cases hn : n < 10
    · simp only [hn, if_true, List.mem_singleton] at h
      subst h
      have := digitChar_mod_digit n
      rwa [Nat.mod_eq_of_lt hn] at this
    · simp only [hn, if_false, List.mem_append, List.mem_singleton] at h
      rcases h with h | h
      · exact ih _ c h
      · subst h
        exact digitChar_mod_digit n

theorem natDigits_digits (n : Nat) :
    ∀ c ∈ natDigits n, ('0' ≤ c && c ≤ '9') = true := by
  intro c hc
  exact natDigitsAux_digits _ _ c hc

theorem sanIso_tsChar (t : Instant) : ∀ c ∈ sanIso t, tsChar c = true := by
  intro c hc
  unfold sanIso pad2 pad3 pad4 at hc
  have hdig : ∀ m : Nat, c = Nat.digitChar (m % 10) → tsChar c = true := by
    intro m hm
    subst hm
    have hr := digitChar_mod_digit m
    simp [tsChar, hr]
  simp only [List.cons_append, List.append_assoc, List.mem_cons,
    List.mem_append, List.mem_singleton, List.not_mem_nil, or_false,
    false_or] at hc
  casesm* _ ∨ _
  all_goals
    first
      | (rename_i h; exact hdig _ h)
      | (rename_i h; subst h; decide)

theorem segChar_fileChar {c : Char} (h : segChar c = true) :
    fileChar c = true := by
  simp [fileChar, h]

theorem tsChar_fileChar {c : Char} (h : tsChar c = true) :
    fileChar c = true := by
  have hd : (('0' ≤ c && c ≤ '9') || c = '-' || c = 'T' || c = 'Z') = true := h
  rcases Bool.or_eq_true_iff.mp hd with h' | h'
  · rcases Bool.or_eq_true_iff.mp h' with h'' | h''
    · rcases Bool.or_eq_true_iff.mp h'' with h3 | h3
      · simp [fileChar, segChar, h3]
      · simp [fileChar, h3]
    · simp [fileChar, h'']
  · simp [fileChar, h']

theorem digit_fileChar {c : Char} (h : ('0' ≤ c && c ≤ '9') = true) :
    fileChar c = true := by
  simp [fileChar, segChar, h]

theorem generateImageFilename_chars (prompt : List Char) (index : Nat)
    (now : Instant) :
    ∀ c ∈ generateImageFilename prompt index now, fileChar c = true := by
  intro c hc
  unfold generateImageFilename at hc
  simp only [List.cons_append, List.append_assoc, List.mem_cons,
    List.mem_append, List.mem_singleton, List.not_mem_nil, or_false,
    false_or] at hc
  casesm* _ ∨ _
  all_goals
    first
      | (rename_i h; exact segChar_fileChar (safePrompt_segChar prompt c h))
      | (rename_i h; exact digit_fileChar (natDigits_digits index c h))
      | (rename_i h
         rw [sanitize_toISOString] at h
         exact tsChar_fileChar (sanIso_tsChar now c h))
      | (rename_i h; subst h; decide)

/-! ## No path separators, no dot-dot -/

theorem count_dot_zero {l : List Char} (pred : Char → Bool)
    (hpred : pred '.' = false) (hl : ∀ c ∈ l, pred c = true) :
    List.count '.' l = 0 :=
  List.count_eq_zero.mpr (fun hm => by
    have hc := hl '.' hm
    rw [hpred] at hc
    exact Bool.false_ne_true hc)

theorem count_dot_name (prompt : List Char) (index : Nat) (now : Instant) :
    List.count '.' (generateImageFilename prompt index now) = 1 := by
  have hP : List.count '.' "minimax_image_01_".data = 0 := by decide
  have hJ : List.count '.' ".jpeg".data = 1 := by decide
  have hS : List.count '.' (safePrompt prompt) = 0 :=
    count_dot_zero segChar (by decide) (safePrompt_segChar prompt)
  have hND : List.count '.' (natDigits index) = 0 :=
    count_dot_zero (fun c => '0' ≤ c && c ≤ '9') (by decide)
      (natDigits_digits index)
  have hSAN : List.count '.' (sanitizeTimestamp (toISOString now)) = 0 := by
    rw [sanitize_toISOString]
    exact count_dot_zero tsChar (by decide) (sanIso_tsChar now)
  unfold generateImageFilename
  simp [List.count_append, List.count_cons, hP, hJ, hS, hND, hSAN]

/-- C10: for every prompt and index, `generateImageFilename` returns the
fixed head `minimax_image_01_`, a segment of at most 50 characters drawn
only from `[a-z0-9_]`, the decimal index, the timestamp with `:` and `.`
replaced by `-`, and the `.jpeg` extension; every character of the name is
filesystem-safe — in particular the name contains no path separator
(`/` or `\`) and no `..` component, so joining it to the images directory
always yields a path inside that directory, whatever the prompt. -/
theorem claim10_filename_filesystem_safe (prompt : List Char) (index : Nat)
    (now : Instant) :
    (safePrompt prompt).length ≤ 50 ∧
    (∀ c ∈ safePrompt prompt, segChar c = true) ∧
    generateImageFilename prompt index now =
      "minimax_image_01_".data ++ safePrompt prompt ++
        '_' :: natDigits index ++ '_' ::
        sanitizeTimestamp (toISOString now) ++ ".jpeg".data ∧
    (∀ c ∈ generateImageFilename prompt index now, fileChar c = true) ∧
    '/' ∉ generateImageFilename prompt index now ∧
    '\\' ∉ generateImageFilename prompt index now ∧
    ¬ List.IsInfix ['.', '.'] (generateImageFilename prompt index now) := by
  refine ⟨safePrompt_len prompt, safePrompt_segChar prompt, rfl,
    generateImageFilename_chars prompt index now, ?_, ?_, ?_⟩
  · intro h
    have hf := generateImageFilename_chars prompt index now '/' h
    exact absurd hf (by decide)
  · intro h
    have hf := generateImageFilename_chars prompt index now '\\' h
    exact absurd hf (by decide)
  · intro hinf
    have hle := (hinf.sublist).count_le '.'
    rw [count_dot_name] at hle
    have h2 : List.count '.' ['.', '.'] = 2 := by decide
    rw [h2] at hle
    omega

/-- Witness for C10: a prompt containing a path separator still yields a
separator-free filename. -/
theorem claim10_witness :
    '/' ∉ generateImageFilename "a/b".data 2 ⟨2025, 1, 2, 3, 4, 5, 6⟩ :=
  (claim10_filename_filesystem_safe _ _ _).2.2.2.2.1

end Minimax
